import Mathlib

/-!
Shallow embedding of src/src/kagimcp/server.py.

The two MCP tools `kagi_search_fetch` and `kagi_summarizer` call a remote
Kagi client.  The remote client is modelled as an oracle function passed in
explicitly; an invocation of a tool returns both the text the tool would
return and the list of remote calls it issued, so claims about which remote
calls happen are statable.  A remote call outcome is either a successful
response, an exception (carrying the display text that Python's
`str(e) or repr(e)` would produce for it), or a timeout (the `timeout=10`
bound of `executor.map`; Python displays `concurrent.futures.TimeoutError`
as its repr `TimeoutError()` since its `str` is empty).
-/

/-- One entry of a search response's `data` list.  The field `t` is the
result-type discriminator (`0` = organic result, `1` = related search);
`published` is optional, the other fields are always present. -/
structure SearchEntry where
  t : Nat
  title : String
  url : String
  published : Option String
  snippet : String
deriving DecidableEq, Repr

/-- One raw response of the remote search API: a `data` list of entries. -/
structure SearchResponse where
  data : List SearchEntry
deriving DecidableEq, Repr

/-- Outcome of one remote call: success, an exception (with its display
text, i.e. the value of `str(e) or repr(e)`), or exceeding the timeout. -/
inductive RemoteOutcome (α : Type) where
  | ok (val : α)
  | exn (msg : String)
  | timeout

/-- The display text Python produces for `concurrent.futures.TimeoutError`:
its `str` is empty, so `str(e) or repr(e)` falls back to the repr. -/
def timeoutText : String := "TimeoutError()"

/-- The `timeout=10` argument given to `executor.map` in `kagi_search_fetch`. -/
def search_timeout : Nat := 10

/-- The `result_template` of `format_search_results`, after
`textwrap.dedent(...).strip()`, applied to its format arguments. -/
def result_template (result_number : Nat) (result : SearchEntry) : String :=
  toString result_number ++ ": " ++ result.title ++ "\n" ++ result.url
    ++ "\nPublished Date: " ++ result.published.getD "Not Available"
    ++ "\n" ++ result.snippet

/-- The `query_response_template` of `format_search_results`, after
`textwrap.dedent(...).strip()`, applied to its format arguments. -/
def query_response_template (query : String) (formatted_search_results : String) : String :=
  "-----\nResults for search query \"" ++ query ++ "\":\n-----\n"
    ++ formatted_search_results

/-- The filtering step of `format_search_results`:
`[result for result in response["data"] if result["t"] == 0]`. -/
def surfacedResults (response : SearchResponse) : List SearchEntry :=
  response.data.filter (fun r => r.t == 0)

/-- The loop of `format_search_results`, with the rendering step kept
symbolic: for each `(query, response)` pair of the zip it records the query
together with the numbered surfaced results
(`enumerate(results, start=start_index)`), threading `start_index` exactly
as the Python loop does (`start_index += len(results)`). -/
def numberedBlocks :
    List (String × SearchResponse) → Nat → List (String × List (Nat × SearchEntry))
  | [], _ => []
  | (query, response) :: rest, start_index =>
    let results := surfacedResults response
    (query, results.enumFrom start_index)
      :: numberedBlocks rest (start_index + results.length)

/-- Rendering of one per-query section: the numbered result blocks are
formatted with `result_template`, joined by blank lines, and wrapped in
`query_response_template`. -/
def renderSection (query : String) (blocks : List (Nat × SearchEntry)) : String :=
  query_response_template query
    (String.intercalate "\n\n" (blocks.map (fun p => result_template p.1 p.2)))

/-- `format_search_results(queries, responses)`: zip queries with responses,
number the surfaced results with one running counter starting at 1, render
each section and join the sections with blank lines. -/
def format_search_results (queries : List String) (responses : List SearchResponse) : String :=
  String.intercalate "\n\n"
    ((numberedBlocks (queries.zip responses) 1).map (fun p => renderSection p.1 p.2))

/-- `list(executor.map(kagi_client.search, queries, timeout=10))`: the
responses in query order if every call succeeds, otherwise the display text
of the first failing query's exception (iteration surfaces failures in
submission order). -/
def collectOutcomes (search : String → RemoteOutcome SearchResponse) :
    List String → Except String (List SearchResponse)
  | [] => .ok []
  | q :: qs =>
    match search q with
    | .ok r =>
      match collectOutcomes search qs with
      | .ok rs => .ok (r :: rs)
      | .error m => .error m
    | .exn m => .error m
    | .timeout => .error timeoutText

/-- The `kagi_search_fetch` tool.  Returns the text given back to the host
together with the list of queries actually sent to the remote client
(`executor.map` submits one task per query before any result is awaited,
so on a non-empty query list every query is sent even when some call
fails; on an empty list the `ValueError` is raised before the executor
exists, so nothing is sent). -/
def kagi_search_fetch (search : String → RemoteOutcome SearchResponse)
    (queries : List String) : String × List String :=
  if queries.isEmpty then
    ("Error: Search called with no queries.", [])
  else
    match collectOutcomes search queries with
    | .ok results => (format_search_results queries results, queries)
    | .error m => ("Error: " ++ m, queries)

/-- Arguments of one remote `kagi_client.summarize` call. -/
structure SummarizeRequest where
  url : String
  engine : String
  summary_type : String
  target_language : Option String
deriving DecidableEq, Repr

/-- The part of a summarize response the tool uses: the nested
`["data"]["output"]` text. -/
structure SummarizeResponse where
  output : String
deriving DecidableEq, Repr

/-- The `valid_engines` allow-list of `kagi_summarizer`. -/
def valid_engines : List String := ["cecil", "agnes", "daphne", "muriel"]

/-- Display of the Python set `valid_engines` inside the f-string of the
configuration error (element order as written in the source; CPython may
print the set in another order, which no claim depends on). -/
def valid_engines_text : String := "\x7b'cecil', 'agnes', 'daphne', 'muriel'\x7d"

/-- Schema default of the `summary_type` argument. -/
def default_summary_type : String := "summary"

/-- Schema default of the `target_language` argument. -/
def default_target_language : Option String := none

/-- The `kagi_summarizer` tool.  `engineEnv` models
`os.environ.get("KAGI_SUMMARIZER_ENGINE")` (`none` when the variable is
unset, in which case the default `"cecil"` is used).  Returns the text given
back to the host together with the list of remote summarize calls issued. -/
def kagi_summarizer (summarize : SummarizeRequest → RemoteOutcome SummarizeResponse)
    (engineEnv : Option String) (url : String)
    (summary_type : String) (target_language : Option String) :
    String × List SummarizeRequest :=
  if url = "" then
    ("Error: Summarizer called with no URL.", [])
  else
    let engine := engineEnv.getD "cecil"
    if valid_engines.contains engine then
      let req : SummarizeRequest :=
        ⟨url, engine, summary_type, target_language⟩
      match summarize req with
      | .ok resp => (resp.output, [req])
      | .exn m => ("Error: " ++ m, [req])
      | .timeout => ("Error: " ++ timeoutText, [req])
    else
      ("Error: Summarizer configured incorrectly, invalid summarization engine set: "
         ++ engine ++ ". Must be one of the following: " ++ valid_engines_text, [])

/-- The display numbers assigned across the whole formatter call, in output
order: the first components of the numbered blocks of every section,
concatenated. -/
def assignedNumbers (queries : List String) (responses : List SearchResponse) : List Nat :=
  ((numberedBlocks (queries.zip responses) 1).map (fun p => p.2.map Prod.fst)).flatten

/-- Total count of surfaced (discriminator-0) results over a pair list. -/
def totalSurfaced (pairs : List (String × SearchResponse)) : Nat :=
  (pairs.map (fun p => (surfacedResults p.2).length)).sum

/-- The text `s` mentions `pat`: `pat` occurs in `s` as a substring. -/
def mentions (s pat : String) : Prop :=
  ∃ a b : String, s = a ++ pat ++ b

/-- A sample organic (discriminator-0) result entry with no published date. -/
def sampleOrganic : SearchEntry := ⟨0, "T", "U", none, "S"⟩

/-- A sample related-search (discriminator-1) entry. -/
def sampleRelated : SearchEntry := ⟨1, "R", "V", none, "W"⟩

/-- A sample organic result entry with a published date. -/
def sampleOrganic2 : SearchEntry := ⟨0, "T2", "U2", some "2024-01-01", "S2"⟩

-- Smoke tests (spec section 8's worked example shape).
example :
    format_search_results ["q1"] [⟨[⟨0, "T", "U", none, "S"⟩]⟩]
      = "-----\nResults for search query \"q1\":\n-----\n1: T\nU\nPublished Date: Not Available\nS" := by
  decide

example :
    assignedNumbers ["a", "b"]
      [⟨[⟨0, "T", "U", none, "S"⟩, ⟨1, "R", "V", none, "W"⟩]⟩,
       ⟨[⟨0, "T2", "U2", some "2024", "S2"⟩]⟩] = [1, 2] := by
  decide

-- Helper lemmas shared between several claims.

theorem numberedBlocks_numbers (pairs : List (String × SearchResponse)) :
    ∀ s : Nat,
      ((numberedBlocks pairs s).map (fun p => p.2.map Prod.fst)).flatten
        = List.range' s (totalSurfaced pairs) := by
  induction pairs with
  | nil => intro s; simp [numberedBlocks, totalSurfaced]
  | cons p rest ih =>
    intro s
    obtain ⟨q, resp⟩ := p
    simp only [numberedBlocks, List.map_cons, List.flatten_cons,
      List.enumFrom_map_fst, ih]
    have ht : totalSurfaced ((q, resp) :: rest)
        = (surfacedResults resp).length + totalSurfaced rest := by
      simp [totalSurfaced]
    rw [ht, Nat.add_comm (surfacedResults resp).length (totalSurfaced rest)]
    exact List.range'_append_1 s (surfacedResults resp).length (totalSurfaced rest)

theorem numberedBlocks_len (pairs : List (String × SearchResponse)) :
    ∀ s : Nat, (numberedBlocks pairs s).length = pairs.length := by
  induction pairs with
  | nil => intro s; simp [numberedBlocks]
  | cons p rest ih =>
    intro s
    obtain ⟨q, resp⟩ := p
    simp [numberedBlocks, ih]

theorem surfaced_nil (response : SearchResponse)
    (h : ∀ e ∈ response.data, e.t = 1) : surfacedResults response = [] := by
  simp only [surfacedResults, List.filter_eq_nil_iff]
  intro e he
  simp [h e he]

-- C1: one counter across the whole call, starting at 1.

/-- C1: for every non-empty query list and equal-length response list, the
display numbers the formatter assigns, read off in output order, are
exactly 1, 2, ..., totalSurfaced: one counter starting at 1, incremented
once per surfaced result, never reset between queries. -/
theorem numbering_continuous (queries : List String)
    (responses : List SearchResponse)
    (hne : queries ≠ []) (hlen : queries.length = responses.length) :
    assignedNumbers queries responses
      = List.range' 1 (totalSurfaced (queries.zip responses)) :=
  numberedBlocks_numbers (queries.zip responses) 1

/-- Witness for C1 at a concrete two-query call with three surfaced
results: the numbers are [1, 2, 3]. -/
theorem numbering_continuous_witness :
    assignedNumbers ["rust ownership", "go channels"]
        [⟨[sampleOrganic, sampleRelated, sampleOrganic2]⟩, ⟨[sampleOrganic]⟩]
      = List.range' 1
          (totalSurfaced (List.zip ["rust ownership", "go channels"]
            [⟨[sampleOrganic, sampleRelated, sampleOrganic2]⟩, ⟨[sampleOrganic]⟩])) :=
  numbering_continuous _ _ (by decide) (by decide)

example :
    assignedNumbers ["rust ownership", "go channels"]
        [⟨[sampleOrganic, sampleRelated, sampleOrganic2]⟩, ⟨[sampleOrganic]⟩]
      = [1, 2, 3] := by
  decide

-- C10: mismatched lengths are truncated by the zip.

/-- C10: with a queries list and a responses list of different lengths the
formatter still returns (it is total): it pairs positionally, producing
exactly min(len queries, len responses) sections and the same output as if
both lists were truncated to that length; surplus elements are ignored. -/
theorem zip_truncation (queries : List String) (responses : List SearchResponse) :
    format_search_results queries responses
        = format_search_results
            (queries.take (min queries.length responses.length))
            (responses.take (min queries.length responses.length))
      ∧ (numberedBlocks (queries.zip responses) 1).length
          = min queries.length responses.length := by
  constructor
  · unfold format_search_results
    rw [← List.zip_eq_zip_take_min]
  · rw [numberedBlocks_len, List.length_zip]

example :
    format_search_results ["a", "b"] [⟨[sampleOrganic]⟩]
      = format_search_results ["a"] [⟨[sampleOrganic]⟩] := by
  decide

-- C4: missing published date renders as the literal "Not Available".

/-- C4: a result entry without a published date renders with the literal
text "Not Available" in the published-date position of its four-line
block; an entry with a published date renders that value there instead. -/
theorem published_fallback (n : Nat) (r : SearchEntry) :
    (r.published = none →
      result_template n r
        = toString n ++ ": " ++ r.title ++ "\n" ++ r.url
            ++ "\nPublished Date: Not Available\n" ++ r.snippet)
    ∧ (∀ d, r.published = some d →
      result_template n r
        = toString n ++ ": " ++ r.title ++ "\n" ++ r.url
            ++ "\nPublished Date: " ++ d ++ "\n" ++ r.snippet) := by
  constructor
  · intro h
    have lit : ("\nPublished Date: Not Available\n" : String)
        = "\nPublished Date: " ++ "Not Available" ++ "\n" := by decide
    rw [result_template, h, lit]
    simp [String.append_assoc]
  · intro d h
    have lit : ("\nPublished Date: " : String) ++ d ++ "\n"
        = "\nPublished Date: " ++ (d ++ "\n") := by
      simp [String.append_assoc]
    rw [result_template, h]
    simp [String.append_assoc, Option.getD]

/-- Witness for C4: the sample entry without a published date renders with
"Not Available", and the sample entry with one renders its date. -/
theorem published_fallback_witness :
    (result_template 1 sampleOrganic
        = toString 1 ++ ": " ++ sampleOrganic.title ++ "\n" ++ sampleOrganic.url
            ++ "\nPublished Date: Not Available\n" ++ sampleOrganic.snippet)
      ∧ (result_template 2 sampleOrganic2
        = toString 2 ++ ": " ++ sampleOrganic2.title ++ "\n" ++ sampleOrganic2.url
            ++ "\nPublished Date: " ++ "2024-01-01" ++ "\n" ++ sampleOrganic2.snippet) :=
  ⟨(published_fallback 1 sampleOrganic).1 (by decide),
   (published_fallback 2 sampleOrganic2).2 "2024-01-01" (by decide)⟩

-- C5: a query whose response has only related-search entries still gets
-- its header, and the counter does not move.

/-- C5: when every entry of the first query's response has discriminator 1,
its section is rendered as the bare header (which repeats the query text)
with zero result blocks, and the numbering of the remaining queries still
starts at the same counter value (1 here): the counter is unchanged. -/
theorem empty_section_header (q : String) (response : SearchResponse)
    (qs : List String) (rs : List SearchResponse)
    (h : ∀ e ∈ response.data, e.t = 1) :
    format_search_results (q :: qs) (response :: rs)
        = String.intercalate "\n\n"
            (query_response_template q ""
              :: (numberedBlocks (qs.zip rs) 1).map (fun p => renderSection p.1 p.2))
      ∧ query_response_template q ""
          = "-----\nResults for search query \"" ++ q ++ "\":\n-----\n"
      ∧ surfacedResults response = [] := by
  have hs := surfaced_nil response h
  refine ⟨?_, ?_, hs⟩
  · unfold format_search_results
    have h1 : (q :: qs).zip (response :: rs) = (q, response) :: qs.zip rs := rfl
    have h0 : String.intercalate "\n\n" ([] : List String) = "" := rfl
    rw [h1]
    simp only [numberedBlocks, hs, List.enumFrom_nil, List.length_nil,
      Nat.add_zero, List.map_cons, renderSection, List.map_nil, h0]
  · simp [query_response_template]

/-- Witness for C5: a response containing only the sample related-search
entry renders as its header alone, and the next query is still numbered
from 1. -/
theorem empty_section_header_witness :
    format_search_results ["no hits", "b"] [⟨[sampleRelated]⟩, ⟨[sampleOrganic]⟩]
        = String.intercalate "\n\n"
            (query_response_template "no hits" ""
              :: (numberedBlocks (List.zip ["b"] [⟨[sampleOrganic]⟩]) 1).map
                  (fun p => renderSection p.1 p.2))
      ∧ query_response_template "no hits" ""
          = "-----\nResults for search query \"no hits\":\n-----\n"
      ∧ surfacedResults ⟨[sampleRelated]⟩ = [] :=
  empty_section_header "no hits" ⟨[sampleRelated]⟩ ["b"] [⟨[sampleOrganic]⟩] (by decide)

-- C2: exactly the discriminator-0 entries are surfaced.

theorem numberedBlocks_congr_mid (q : String) (r₁ r₂ : SearchResponse)
    (h : surfacedResults r₁ = surfacedResults r₂)
    (A B : List (String × SearchResponse)) :
    ∀ s : Nat,
      numberedBlocks (A ++ (q, r₁) :: B) s = numberedBlocks (A ++ (q, r₂) :: B) s := by
  induction A with
  | nil => intro s; simp [numberedBlocks, h]
  | cons p A ih =>
    intro s
    obtain ⟨q', resp⟩ := p
    simp [numberedBlocks, ih]

/-- C2: the entries rendered for a query are exactly the entries of its
response with discriminator 0; an entry with discriminator 1 is never
among them, and inserting such an entry anywhere in any response changes
neither the rendered output nor any assigned number. -/
theorem discriminator_filtering
    (q : String) (response : SearchResponse) (s : Nat)
    (e : SearchEntry) (he : e.t = 1)
    (qs₁ qs₂ : List String) (rs₁ rs₂ : List SearchResponse)
    (pre post : List SearchEntry) (hlen : qs₁.length = rs₁.length) :
    numberedBlocks [(q, response)] s
        = [(q, (response.data.filter (fun r => r.t == 0)).enumFrom s)]
      ∧ e ∉ surfacedResults ⟨pre ++ e :: post⟩
      ∧ surfacedResults ⟨pre ++ e :: post⟩ = surfacedResults ⟨pre ++ post⟩
      ∧ format_search_results (qs₁ ++ q :: qs₂) (rs₁ ++ ⟨pre ++ e :: post⟩ :: rs₂)
          = format_search_results (qs₁ ++ q :: qs₂) (rs₁ ++ ⟨pre ++ post⟩ :: rs₂) := by
  have hdrop : surfacedResults ⟨pre ++ e :: post⟩ = surfacedResults ⟨pre ++ post⟩ := by
    simp [surfacedResults, List.filter_append, List.filter_cons, he]
  refine ⟨by simp [numberedBlocks, surfacedResults], ?_, hdrop, ?_⟩
  · simp [surfacedResults, List.mem_filter, he]
  · unfold format_search_results
    rw [List.zip_append hlen, List.zip_append hlen,
      List.zip_cons_cons, List.zip_cons_cons,
      numberedBlocks_congr_mid q _ _ hdrop (qs₁.zip rs₁) (qs₂.zip rs₂) 1]

/-- Witness for C2: inserting the sample related-search entry between two
organic results leaves the whole formatted output unchanged. -/
theorem discriminator_filtering_witness :
    numberedBlocks [("q", ⟨[sampleOrganic, sampleRelated]⟩)] 1
        = [("q", ((⟨[sampleOrganic, sampleRelated]⟩ : SearchResponse).data.filter
              (fun r => r.t == 0)).enumFrom 1)]
      ∧ sampleRelated ∉ surfacedResults ⟨[sampleOrganic] ++ sampleRelated :: [sampleOrganic2]⟩
      ∧ surfacedResults ⟨[sampleOrganic] ++ sampleRelated :: [sampleOrganic2]⟩
          = surfacedResults ⟨[sampleOrganic] ++ [sampleOrganic2]⟩
      ∧ format_search_results ([] ++ "q" :: [])
            ([] ++ (⟨[sampleOrganic] ++ sampleRelated :: [sampleOrganic2]⟩ : SearchResponse) :: [])
          = format_search_results ([] ++ "q" :: [])
            ([] ++ (⟨[sampleOrganic] ++ [sampleOrganic2]⟩ : SearchResponse) :: []) :=
  discriminator_filtering "q" ⟨[sampleOrganic, sampleRelated]⟩ 1 sampleRelated (by decide)
    [] [] [] [] [sampleOrganic] [sampleOrganic2] rfl

-- C3: empty input is rejected before any remote call.

/-- C3: calling the search tool with an empty query list, or the summarizer
with an empty URL, returns text beginning with "Error: " and issues no
remote call. -/
theorem empty_input_guard
    (search : String → RemoteOutcome SearchResponse)
    (summarize : SummarizeRequest → RemoteOutcome SummarizeResponse)
    (engineEnv : Option String) (st : String) (tl : Option String) :
    kagi_search_fetch search [] = ("Error: Search called with no queries.", [])
      ∧ kagi_summarizer summarize engineEnv "" st tl
          = ("Error: Summarizer called with no URL.", [])
      ∧ (∃ m, (kagi_search_fetch search []).1 = "Error: " ++ m)
      ∧ (∃ m, (kagi_summarizer summarize engineEnv "" st tl).1 = "Error: " ++ m) :=
  ⟨rfl, rfl, ⟨"Search called with no queries.", rfl⟩,
    ⟨"Summarizer called with no URL.", rfl⟩⟩

-- C7: any remote failure aborts the whole batch.

theorem collectOutcomes_error_of_fail
    (search : String → RemoteOutcome SearchResponse) :
    ∀ (queries : List String) (q : String), q ∈ queries →
      (∀ r, search q ≠ RemoteOutcome.ok r) →
      ∃ m, collectOutcomes search queries = Except.error m := by
  intro queries
  induction queries with
  | nil => intro q hq; cases hq
  | cons a qs ih =>
    intro q hq hfail
    rcases List.mem_cons.mp hq with rfl | hq'
    · cases hsa : search q with
      | ok r => exact absurd hsa (hfail r)
      | exn m => exact ⟨m, by simp [collectOutcomes, hsa]⟩
      | timeout => exact ⟨timeoutText, by simp [collectOutcomes, hsa]⟩
    · cases hsa : search a with
      | ok r =>
        obtain ⟨m, hm⟩ := ih q hq' hfail
        exact ⟨m, by simp [collectOutcomes, hsa, hm]⟩
      | exn m => exact ⟨m, by simp [collectOutcomes, hsa]⟩
      | timeout => exact ⟨timeoutText, by simp [collectOutcomes, hsa]⟩

/-- C7: if any query's remote call fails (exception or timeout), the whole
batch fails: the tool returns the single error string of the first failure
in query order, and nothing of the successful queries' responses appears
(the returned text is exactly that error string). -/
theorem batch_failure (search : String → RemoteOutcome SearchResponse)
    (queries : List String) (q : String) (hq : q ∈ queries)
    (hfail : ∀ r, search q ≠ RemoteOutcome.ok r) :
    ∃ m, collectOutcomes search queries = Except.error m
      ∧ kagi_search_fetch search queries = ("Error: " ++ m, queries) := by
  obtain ⟨m, hm⟩ := collectOutcomes_error_of_fail search queries q hq hfail
  refine ⟨m, hm, ?_⟩
  cases queries with
  | nil => cases hq
  | cons a qs => simp [kagi_search_fetch, hm]

/-- Witness for C7: with an oracle that always raises, a two-query batch
returns a single error string and no formatted results. -/
theorem batch_failure_witness :
    ∃ m, collectOutcomes (fun _ => RemoteOutcome.exn "boom") ["a", "b"]
          = Except.error m
      ∧ kagi_search_fetch (fun _ => RemoteOutcome.exn "boom") ["a", "b"]
          = ("Error: " ++ m, ["a", "b"]) :=
  batch_failure (fun _ => RemoteOutcome.exn "boom") ["a", "b"] "a"
    (by decide) (fun r h => nomatch h)

-- C9: one remote summarize call, output returned verbatim.

/-- C9: for a non-empty URL with a validly configured engine, a successful
summarize call is issued exactly once, with the given URL, the configured
engine, the given summary type and target language, and its nested
data.output text is returned verbatim; the schema defaults are "summary"
and no target language. -/
theorem summarizer_success
    (summarize : SummarizeRequest → RemoteOutcome SummarizeResponse)
    (engineEnv : Option String) (url st : String) (tl : Option String)
    (resp : SummarizeResponse)
    (hurl : url ≠ "")
    (heng : valid_engines.contains (engineEnv.getD "cecil") = true)
    (hcall : summarize ⟨url, engineEnv.getD "cecil", st, tl⟩
        = RemoteOutcome.ok resp) :
    kagi_summarizer summarize engineEnv url st tl
        = (resp.output, [⟨url, engineEnv.getD "cecil", st, tl⟩])
      ∧ default_summary_type = "summary"
      ∧ default_target_language = none := by
  refine ⟨?_, rfl, rfl⟩
  simp only [kagi_summarizer, if_neg hurl, heng, if_true, hcall]

/-- Witness for C9: with the engine variable unset (default cecil), a
successful call returns the remote output text unchanged. -/
theorem summarizer_success_witness :
    kagi_summarizer (fun _ => RemoteOutcome.ok ⟨"the summary text"⟩) none
        "https://example.com" default_summary_type default_target_language
        = ("the summary text",
           [⟨"https://example.com", "cecil", default_summary_type,
             default_target_language⟩])
      ∧ default_summary_type = "summary"
      ∧ default_target_language = none :=
  summarizer_success (fun _ => RemoteOutcome.ok ⟨"the summary text"⟩) none
    "https://example.com" default_summary_type default_target_language
    ⟨"the summary text"⟩ (by decide) (by decide) rfl

-- Substring machinery for "mentions".

theorem mentions_iff (s pat : String) :
    mentions s pat ↔ pat.data <:+: s.data := by
  constructor
  · rintro ⟨a, b, rfl⟩
    exact ⟨a.data, b.data, by simp⟩
  · rintro ⟨u, v, huv⟩
    refine ⟨⟨u⟩, ⟨v⟩, ?_⟩
    apply String.ext
    simp [← huv]

theorem mentions_append_left (x s pat : String) (h : mentions s pat) :
    mentions (x ++ s) pat := by
  obtain ⟨a, b, rfl⟩ := h
  exact ⟨x ++ a, b, by simp [String.append_assoc]⟩

theorem mentions_append_right (s y pat : String) (h : mentions s pat) :
    mentions (s ++ y) pat := by
  obtain ⟨a, b, rfl⟩ := h
  exact ⟨a, b ++ y, by simp [String.append_assoc]⟩

theorem mentions_middle (a pat b : String) : mentions (a ++ pat ++ b) pat :=
  ⟨a, b, rfl⟩

-- C6: engine allow-list check.

/-- C6 counterexample: the claim quantifies over every invocation, but when
the URL is empty the URL check fires first, so with an invalid configured
engine ("bogus") and an empty URL the returned text does not mention the
engine name at all. -/
theorem engine_check_masked :
    kagi_summarizer (fun _ => RemoteOutcome.ok ⟨""⟩) (some "bogus") ""
        default_summary_type default_target_language
        = ("Error: Summarizer called with no URL.", [])
      ∧ ¬ mentions "Error: Summarizer called with no URL." "bogus" := by
  refine ⟨rfl, ?_⟩
  rw [mentions_iff]
  decide

/-- C6 amended: the engine name is read from configuration with default
cecil; for an invocation with a non-empty URL whose configured engine is
outside the allow-list, the tool returns text beginning with "Error: "
that mentions the invalid engine name and each member of the valid set,
and no remote call is issued.  (As stated the claim also covered empty-URL
invocations, where the URL check fires first and the engine is never
mentioned.) -/
theorem engine_allowlist
    (summarize : SummarizeRequest → RemoteOutcome SummarizeResponse)
    (engineEnv : Option String) (url st : String) (tl : Option String)
    (hurl : url ≠ "")
    (hbad : valid_engines.contains (engineEnv.getD "cecil") = false) :
    (kagi_summarizer summarize engineEnv url st tl).2 = []
      ∧ (∃ m, (kagi_summarizer summarize engineEnv url st tl).1 = "Error: " ++ m)
      ∧ mentions (kagi_summarizer summarize engineEnv url st tl).1
          (engineEnv.getD "cecil")
      ∧ mentions (kagi_summarizer summarize engineEnv url st tl).1 "cecil"
      ∧ mentions (kagi_summarizer summarize engineEnv url st tl).1 "agnes"
      ∧ mentions (kagi_summarizer summarize engineEnv url st tl).1 "daphne"
      ∧ mentions (kagi_summarizer summarize engineEnv url st tl).1 "muriel"
      ∧ (∀ s u t l, kagi_summarizer s none u t l
            = kagi_summarizer s (some "cecil") u t l) := by
  have hout : kagi_summarizer summarize engineEnv url st tl
      = ("Error: Summarizer configured incorrectly, invalid summarization engine set: "
           ++ engineEnv.getD "cecil"
           ++ ". Must be one of the following: " ++ valid_engines_text, []) := by
    simp only [kagi_summarizer, if_neg hurl, hbad, Bool.false_eq_true, if_false]
  rw [hout]
  have base : ∀ pat : String, mentions valid_engines_text pat →
      mentions ("Error: Summarizer configured incorrectly, invalid summarization engine set: "
          ++ engineEnv.getD "cecil"
          ++ ". Must be one of the following: " ++ valid_engines_text) pat := by
    intro pat h
    exact mentions_append_left _ _ _ h
  refine ⟨rfl,
    ⟨"Summarizer configured incorrectly, invalid summarization engine set: "
       ++ engineEnv.getD "cecil"
       ++ ". Must be one of the following: " ++ valid_engines_text,
     by
      have lit : ("Error: Summarizer configured incorrectly, invalid summarization engine set: " : String)
          = "Error: " ++ "Summarizer configured incorrectly, invalid summarization engine set: " := by
        decide
      rw [lit]
      simp only [String.append_assoc]⟩,
    ?_, ?_, ?_, ?_, ?_, fun s u t l => rfl⟩
  · refine ⟨"Error: Summarizer configured incorrectly, invalid summarization engine set: ",
      ". Must be one of the following: " ++ valid_engines_text, ?_⟩
    simp [String.append_assoc]
  · exact base "cecil" ((mentions_iff _ _).mpr (by decide))
  · exact base "agnes" ((mentions_iff _ _).mpr (by decide))
  · exact base "daphne" ((mentions_iff _ _).mpr (by decide))
  · exact base "muriel" ((mentions_iff _ _).mpr (by decide))

/-- Witness for C6's amended theorem at engine "bogus" and a non-empty
URL. -/
theorem engine_allowlist_witness :
    (kagi_summarizer (fun _ => RemoteOutcome.ok ⟨""⟩) (some "bogus")
        "https://example.com" default_summary_type default_target_language).2 = []
      ∧ (∃ m, (kagi_summarizer (fun _ => RemoteOutcome.ok ⟨""⟩) (some "bogus")
          "https://example.com" default_summary_type default_target_language).1
            = "Error: " ++ m)
      ∧ mentions (kagi_summarizer (fun _ => RemoteOutcome.ok ⟨""⟩) (some "bogus")
          "https://example.com" default_summary_type default_target_language).1
          ((some "bogus").getD "cecil")
      ∧ mentions (kagi_summarizer (fun _ => RemoteOutcome.ok ⟨""⟩) (some "bogus")
          "https://example.com" default_summary_type default_target_language).1 "cecil"
      ∧ mentions (kagi_summarizer (fun _ => RemoteOutcome.ok ⟨""⟩) (some "bogus")
          "https://example.com" default_summary_type default_target_language).1 "agnes"
      ∧ mentions (kagi_summarizer (fun _ => RemoteOutcome.ok ⟨""⟩) (some "bogus")
          "https://example.com" default_summary_type default_target_language).1 "daphne"
      ∧ mentions (kagi_summarizer (fun _ => RemoteOutcome.ok ⟨""⟩) (some "bogus")
          "https://example.com" default_summary_type default_target_language).1 "muriel"
      ∧ (∀ s u t l, kagi_summarizer s none u t l
            = kagi_summarizer s (some "cecil") u t l) :=
  engine_allowlist (fun _ => RemoteOutcome.ok ⟨""⟩) (some "bogus")
    "https://example.com" default_summary_type default_target_language
    (by decide) (by decide)

-- C8: text-only boundary.

theorem intercalate_go_extends (as : List String) :
    ∀ acc s : String, ∃ t, String.intercalate.go acc s as = acc ++ t := by
  induction as with
  | nil => intro acc s; exact ⟨"", by simp [String.intercalate.go]⟩
  | cons a as ih =>
    intro acc s
    obtain ⟨t, ht⟩ := ih (acc ++ s ++ a) s
    refine ⟨s ++ a ++ t, ?_⟩
    simp only [String.intercalate.go]
    rw [ht]
    simp [String.append_assoc]

theorem intercalate_cons_extends (s x : String) (xs : List String) :
    ∃ t, String.intercalate s (x :: xs) = x ++ t := by
  simpa [String.intercalate] using intercalate_go_extends xs x s

theorem dashes_ne_error (u m : String) : "-----" ++ u ≠ "Error: " ++ m := by
  intro h
  have hd := congrArg String.data h
  simp only [String.data_append] at hd
  have hh := congrArg List.head? hd
  simp only [List.cons_append, List.head?_cons] at hh
  exact absurd (Option.some.inj hh) (by decide)

theorem format_starts_with_dashes (q : String) (qs : List String)
    (r : SearchResponse) (rs : List SearchResponse) :
    ∃ u, format_search_results (q :: qs) (r :: rs) = "-----" ++ u := by
  obtain ⟨t, ht⟩ := intercalate_cons_extends "\n\n"
    (renderSection q ((surfacedResults r).enumFrom 1))
    ((numberedBlocks (qs.zip rs) (1 + (surfacedResults r).length)).map
      (fun p => renderSection p.1 p.2))
  have h1 : (q :: qs).zip (r :: rs) = (q, r) :: qs.zip rs := rfl
  refine ⟨"\nResults for search query \"" ++ q ++ "\":\n-----\n"
    ++ String.intercalate "\n\n"
        (((surfacedResults r).enumFrom 1).map (fun p => result_template p.1 p.2))
    ++ t, ?_⟩
  unfold format_search_results
  rw [h1]
  simp only [numberedBlocks, List.map_cons]
  rw [ht, renderSection, query_response_template]
  have lit : ("-----\nResults for search query \"" : String)
      = "-----" ++ "\nResults for search query \"" := by decide
  rw [lit]
  simp only [String.append_assoc]

theorem collectOutcomes_ok_length
    (search : String → RemoteOutcome SearchResponse) :
    ∀ (queries : List String) (rs : List SearchResponse),
      collectOutcomes search queries = Except.ok rs → rs.length = queries.length := by
  intro queries
  induction queries with
  | nil =>
    intro rs h
    simp only [collectOutcomes] at h
    cases h
    rfl
  | cons a qs ih =>
    intro rs h
    simp only [collectOutcomes] at h
    cases hsa : search a with
    | ok r =>
      rw [hsa] at h
      cases hrec : collectOutcomes search qs with
      | ok rs' =>
        rw [hrec] at h
        cases h
        simp [ih rs' hrec]
      | error m => rw [hrec] at h; cases h
    | exn m => rw [hsa] at h; cases h
    | timeout => rw [hsa] at h; cases h

/-- C8 counterexample: a successful summarizer invocation (non-empty URL,
valid default engine, remote call succeeds, one call issued) whose remote
output text itself begins with "Error: " is returned verbatim, so a
success return can carry the "Error: " prefix, contradicting the claim's
"on success the tool returns plain text without that prefix". -/
theorem error_text_collision :
    kagi_summarizer (fun _ => RemoteOutcome.ok ⟨"Error: remote text"⟩) none
        "https://example.com" default_summary_type default_target_language
      = ("Error: " ++ "remote text",
         [⟨"https://example.com", "cecil", default_summary_type,
           default_target_language⟩]) := by
  decide

/-- C8 amended: both tools always return plain text (the embedding is a
total function into strings, so nothing propagates past the boundary);
every failure kind — empty input, invalid engine configuration, remote
exception, remote timeout — yields text beginning with "Error: "; a
successful search returns the formatted report, which never begins with
"Error: "; a successful summarize returns the remote output text verbatim,
which begins with "Error: " only when the remote text itself does. -/
theorem error_text_boundary
    (search : String → RemoteOutcome SearchResponse)
    (summarize : SummarizeRequest → RemoteOutcome SummarizeResponse)
    (queries : List String) (engineEnv : Option String)
    (url st : String) (tl : Option String) :
    (queries = [] →
      kagi_search_fetch search queries
        = ("Error: Search called with no queries.", []))
    ∧ (∀ m, collectOutcomes search queries = Except.error m →
        (kagi_search_fetch search queries).1 = "Error: " ++ m)
    ∧ (∀ rs, queries ≠ [] → collectOutcomes search queries = Except.ok rs →
        (kagi_search_fetch search queries).1 = format_search_results queries rs
          ∧ ¬ ∃ m, (kagi_search_fetch search queries).1 = "Error: " ++ m)
    ∧ (url = "" →
        kagi_summarizer summarize engineEnv url st tl
          = ("Error: Summarizer called with no URL.", []))
    ∧ (url ≠ "" → valid_engines.contains (engineEnv.getD "cecil") = false →
        ∃ m, (kagi_summarizer summarize engineEnv url st tl).1 = "Error: " ++ m)
    ∧ (url ≠ "" → valid_engines.contains (engineEnv.getD "cecil") = true →
        ∀ m, summarize ⟨url, engineEnv.getD "cecil", st, tl⟩ = RemoteOutcome.exn m →
          (kagi_summarizer summarize engineEnv url st tl).1 = "Error: " ++ m)
    ∧ (url ≠ "" → valid_engines.contains (engineEnv.getD "cecil") = true →
        summarize ⟨url, engineEnv.getD "cecil", st, tl⟩ = RemoteOutcome.timeout →
          (kagi_summarizer summarize engineEnv url st tl).1 = "Error: " ++ timeoutText)
    ∧ (url ≠ "" → valid_engines.contains (engineEnv.getD "cecil") = true →
        ∀ resp, summarize ⟨url, engineEnv.getD "cecil", st, tl⟩ = RemoteOutcome.ok resp →
          (kagi_summarizer summarize engineEnv url st tl).1 = resp.output) := by
  refine ⟨?_, ?_, ?_, ?_, ?_, ?_, ?_, ?_⟩
  · rintro rfl; rfl
  · intro m hm
    cases queries with
    | nil =>
      simp only [collectOutcomes] at hm
      exact Except.noConfusion hm
    | cons a qs => simp [kagi_search_fetch, hm]
  · intro rs hne hok
    cases queries with
    | nil => exact absurd rfl hne
    | cons a qs =>
      have hfst : (kagi_search_fetch search (a :: qs)).1
          = format_search_results (a :: qs) rs := by
        simp [kagi_search_fetch, hok]
      refine ⟨hfst, ?_⟩
      rintro ⟨m, hm⟩
      have hlen := collectOutcomes_ok_length search (a :: qs) rs hok
      cases rs with
      | nil => simp at hlen
      | cons r rs' =>
        rw [hfst] at hm
        obtain ⟨u, hu⟩ := format_starts_with_dashes a qs r rs'
        rw [hu] at hm
        exact dashes_ne_error u m hm
  · rintro rfl; rfl
  · intro hurl hbad
    refine ⟨"Summarizer configured incorrectly, invalid summarization engine set: "
       ++ engineEnv.getD "cecil"
       ++ ". Must be one of the following: " ++ valid_engines_text, ?_⟩
    have lit : ("Error: Summarizer configured incorrectly, invalid summarization engine set: " : String)
        = "Error: " ++ "Summarizer configured incorrectly, invalid summarization engine set: " := by
      decide
    simp only [kagi_summarizer, if_neg hurl, hbad, Bool.false_eq_true, if_false]
    rw [lit]
    simp only [String.append_assoc]
  · intro hurl heng m hm
    simp only [kagi_summarizer, if_neg hurl, heng, if_true, hm]
  · intro hurl heng hm
    simp only [kagi_summarizer, if_neg hurl, heng, if_true, hm]
  · intro hurl heng resp hm
    simp only [kagi_summarizer, if_neg hurl, heng, if_true, hm]

/-- Witness for C8's amended theorem: a one-query success returns the
formatted report and provably does not begin with "Error: ", and a failing
remote call yields the "Error: " prefix. -/
theorem error_text_boundary_witness :
    ((kagi_search_fetch (fun _ => RemoteOutcome.ok ⟨[sampleOrganic]⟩) ["a"]).1
        = format_search_results ["a"] [⟨[sampleOrganic]⟩]
      ∧ ¬ ∃ m, (kagi_search_fetch (fun _ => RemoteOutcome.ok ⟨[sampleOrganic]⟩)
          ["a"]).1 = "Error: " ++ m)
    ∧ (kagi_summarizer (fun _ => RemoteOutcome.exn "boom") none "https://x"
          default_summary_type default_target_language).1 = "Error: " ++ "boom" :=
  ⟨(error_text_boundary (fun _ => RemoteOutcome.ok ⟨[sampleOrganic]⟩)
      (fun _ => RemoteOutcome.exn "boom") ["a"] none "https://x"
      default_summary_type default_target_language).2.2.1
      [⟨[sampleOrganic]⟩] (by decide) rfl,
   (error_text_boundary (fun _ => RemoteOutcome.ok ⟨[sampleOrganic]⟩)
      (fun _ => RemoteOutcome.exn "boom") ["a"] none "https://x"
      default_summary_type default_target_language).2.2.2.2.2.1
      (by decide) (by decide) "boom" rfl⟩
